import Mathlib

/-!
Verification of the CFP idea generator (`cfp_generator.py` / `app.py`).

The generation functions are shallowly embedded as pure Lean functions.
Python's random primitives (`random.choice`, `random.sample`,
`random.shuffle`) are modelled by explicit outcome parameters: a `choice`
over a list of length `n` is an arbitrary natural number reduced mod `n`,
a shuffle is a Fisher-Yates selection sequence driven by an arbitrary
function `Nat → Nat`, and a sample of size `k` is the `k`-prefix of such a
shuffle.  Quantifying over those parameters quantifies over every possible
outcome of the random source, and every value of the parameters denotes an
outcome the source can produce.

String case operations (`str.lower`, `str.title`) are modelled over ASCII,
matching the behaviour of Python on the ASCII strings the program builds.
-/

namespace CFP

/-- ASCII model of the case folding done by Python `str.lower` on a single
character: the 26 upper-case letters map to their lower-case forms, every
other character is unchanged. -/
def pyLowerChar (c : Char) : Char :=
  match c with
  | 'A' => 'a' | 'B' => 'b' | 'C' => 'c' | 'D' => 'd' | 'E' => 'e'
  | 'F' => 'f' | 'G' => 'g' | 'H' => 'h' | 'I' => 'i' | 'J' => 'j'
  | 'K' => 'k' | 'L' => 'l' | 'M' => 'm' | 'N' => 'n' | 'O' => 'o'
  | 'P' => 'p' | 'Q' => 'q' | 'R' => 'r' | 'S' => 's' | 'T' => 't'
  | 'U' => 'u' | 'V' => 'v' | 'W' => 'w' | 'X' => 'x' | 'Y' => 'y'
  | 'Z' => 'z'
  | c => c

/-- ASCII model of the upcasing done by Python `str.title` on the first
character of a word. -/
def pyUpperChar (c : Char) : Char :=
  match c with
  | 'a' => 'A' | 'b' => 'B' | 'c' => 'C' | 'd' => 'D' | 'e' => 'E'
  | 'f' => 'F' | 'g' => 'G' | 'h' => 'H' | 'i' => 'I' | 'j' => 'J'
  | 'k' => 'K' | 'l' => 'L' | 'm' => 'M' | 'n' => 'N' | 'o' => 'O'
  | 'p' => 'P' | 'q' => 'Q' | 'r' => 'R' | 's' => 'S' | 't' => 'T'
  | 'u' => 'U' | 'v' => 'V' | 'w' => 'W' | 'x' => 'X' | 'y' => 'Y'
  | 'z' => 'Z'
  | c => c

/-- ASCII alphabetic test (the "cased character" test of Python `str.title`). -/
def isAsciiAlpha (c : Char) : Bool :=
  ('A' ≤ c && c ≤ 'Z') || ('a' ≤ c && c ≤ 'z')

/-- Model of Python `str.lower` (ASCII). -/
def pyLower (s : String) : String :=
  ⟨s.data.map pyLowerChar⟩

/-- Model of Python `str.title` (ASCII): the first character of every
maximal alphabetic run is upcased, the remaining characters of the run are
downcased.  The boolean argument records whether the previous character was
alphabetic. -/
def pyTitleAux : Bool → List Char → List Char
  | _, [] => []
  | prevAlpha, c :: cs =>
    if isAsciiAlpha c then
      (if prevAlpha then pyLowerChar c else pyUpperChar c) :: pyTitleAux true cs
    else
      c :: pyTitleAux false cs

/-- Model of Python `str.title` (ASCII). -/
def pyTitle (s : String) : String :=
  ⟨pyTitleAux false s.data⟩

/-- `sub` occurs as a contiguous substring of `s` (model of Python `in` on
strings). -/
def strContainsSub (s sub : String) : Prop :=
  sub.data <:+: s.data

instance (s sub : String) : Decidable (strContainsSub s sub) :=
  List.decidableInfix sub.data s.data

/-- Model of `random.choice(xs)`: the element at an arbitrary index reduced
modulo the length.  As `r` ranges over `Nat`, the result ranges over exactly
the elements of `xs` (for non-empty `xs`, the only case the program
exercises); `d` is a dummy default that is never reached then. -/
def pyChoice (xs : List α) (d : α) (r : Nat) : α :=
  xs.getD (r % xs.length) d

/-- Model of `random.sample(xs, 2)`: two elements drawn at distinct
positions, in draw order.  `r1` selects the first position among `n`,
`r2` selects the second among the remaining `n - 1`. -/
def pySample2 (xs : List α) (d : α) (r1 r2 : Nat) : α × α :=
  let n := xs.length
  let i := r1 % n
  let j0 := r2 % (n - 1)
  let j := if j0 < i then j0 else j0 + 1
  (xs.getD i d, xs.getD j d)

/-- One Fisher-Yates selection pass: with fuel `n` (the length of the
remaining list), pick the element at position `r k % length`, remove it, and
continue with the next draw index `k + 1`.  This is the standard model of
`random.shuffle`: as `r` ranges over all functions, the result ranges over
exactly the permutations of the input. -/
def shuffleGo (r : Nat → Nat) : Nat → Nat → List α → List α
  | _, _, [] => []
  | 0, _, _ :: _ => []
  | n + 1, k, x :: xs =>
    let i := r k % (x :: xs).length
    (x :: xs).getD i x :: shuffleGo r n (k + 1) ((x :: xs).eraseIdx i)

/-- Model of `random.shuffle(xs)` driven by the outcome function `r`. -/
def shuffleWith (r : Nat → Nat) (xs : List α) : List α :=
  shuffleGo r xs.length 0 xs

/-- Model of `random.sample(xs, k)`: the first `k` elements of a shuffle
(elements at pairwise distinct positions, in draw order). -/
def pySample (r : Nat → Nat) (k : Nat) (xs : List α) : List α :=
  (shuffleWith r xs).take k

/-! ## Data model (`UserProfile` dataclass, idea dictionaries) -/

/-- The `UserProfile` dataclass shared by `cfp_generator.py` and `app.py`. -/
structure UserProfile where
  name : String
  expertise_areas : List String
  recent_projects : List String
  interests : List String
  target_audience : String
  conference_name : Option String := none
  conference_track : Option String := none
  talk_format : String := "talk"
deriving DecidableEq

/-- An idea record: the `{"title": ..., "type": ..., "topic": ...}`
dictionaries built by `generate_ideas`. -/
structure Idea where
  title : String
  type : String
  topic : String
deriving DecidableEq

/-! ## Static template tables -/

/-- The `ANGLES` lexicon. -/
def ANGLES : List String :=
  ["lessons learned from",
   "the unexpected benefits of",
   "common mistakes in",
   "a beginner\x27s journey into",
   "scaling challenges with",
   "the future of",
   "demystifying",
   "beyond the basics of",
   "real-world applications of",
   "the hidden complexity of",
   "rethinking",
   "what nobody tells you about",
   "a deep dive into",
   "practical tips for",
   "the evolution of"]

/-- The `CONNECTORS` lexicon. -/
def CONNECTORS : List String :=
  ["meets",
   "for",
   "in the age of",
   "through the lens of",
   "powered by",
   "without",
   "beyond",
   "reimagined with"]

/-- The `AUDIENCE_HOOKS` table. -/
def AUDIENCE_HOOKS : List (String × List String) :=
  [("beginners", ["getting started", "fundamentals", "first steps", "introduction to"]),
   ("intermediate", ["leveling up", "best practices", "patterns and antipatterns", "practical"]),
   ("advanced", ["deep dive", "internals", "edge cases", "advanced techniques"]),
   ("mixed", ["for everyone", "from basics to advanced", "comprehensive guide", "all levels"])]

/-- `AUDIENCE_HOOKS.get(key, AUDIENCE_HOOKS["mixed"])`. -/
def audienceHooksGet (key : String) : List String :=
  ((AUDIENCE_HOOKS.find? (fun p => p.1 == key)).map (fun p => p.2)).getD
    ["for everyone", "from basics to advanced", "comprehensive guide", "all levels"]

/-- A format template: a function of the `topic`, `duration` and `artifact`
placeholder values, mirroring `template.format(...)` in the source. -/
def FmtTemplate : Type := String → Nat → String → String

/-- The `FORMATS["talk"]` template list. -/
def talkTemplates : List FmtTemplate :=
  [fun topic duration _ => "A " ++ toString duration ++ "-minute exploration of " ++ topic,
   fun topic _ _ => "Case study: " ++ topic,
   fun topic _ _ => "From zero to hero: " ++ topic,
   fun topic _ _ => topic ++ ": A practitioner\x27s perspective",
   fun topic _ _ => "The art and science of " ++ topic]

/-- The `FORMATS["workshop"]` template list. -/
def workshopTemplates : List FmtTemplate :=
  [fun topic _ artifact => "Hands-on " ++ topic ++ ": Build your first " ++ artifact,
   fun topic _ _ => "Workshop: Mastering " ++ topic ++ " in 90 minutes",
   fun topic _ _ => "Interactive session: " ++ topic ++ " for teams",
   fun topic _ _ => "From theory to practice: " ++ topic ++ " workshop",
   fun topic _ _ => "Build, break, learn: " ++ topic]

/-- The `FORMATS["tutorial"]` template list. -/
def tutorialTemplates : List FmtTemplate :=
  [fun topic _ _ => "Tutorial: " ++ topic ++ " from scratch",
   fun topic _ _ => "Step-by-step guide to " ++ topic,
   fun topic _ _ => "Building with " ++ topic ++ ": A hands-on tutorial",
   fun topic _ _ => topic ++ " bootcamp"]

/-- The `FORMATS["lightning"]` template list. -/
def lightningTemplates : List FmtTemplate :=
  [fun topic _ _ => "5 things I wish I knew about " ++ topic,
   fun topic _ _ => topic ++ " in 5 minutes",
   fun topic _ _ => "Quick wins with " ++ topic,
   fun topic _ _ => "The one thing about " ++ topic ++ " that changed everything",
   fun topic _ _ => topic ++ ": A lightning tour"]

/-- The `FORMATS["chalk talk"]` template list. -/
def chalkTalkTemplates : List FmtTemplate :=
  [fun topic _ _ => "Architecture deep dive: " ++ topic,
   fun topic _ _ => "Whiteboard session: Designing " ++ topic,
   fun topic _ _ => "Interactive discussion: " ++ topic ++ " patterns"]

/-- The `FORMATS["poster"]` template list. -/
def posterTemplates : List FmtTemplate :=
  [fun topic _ _ => "Visualizing " ++ topic,
   fun topic _ _ => topic ++ ": A visual guide"]

/-- The `FORMATS` table. -/
def FORMATS : List (String × List FmtTemplate) :=
  [("talk", talkTemplates),
   ("workshop", workshopTemplates),
   ("tutorial", tutorialTemplates),
   ("lightning", lightningTemplates),
   ("chalk talk", chalkTalkTemplates),
   ("poster", posterTemplates)]

/-- `FORMATS.get(key, FORMATS["talk"])`. -/
def formatsGet (key : String) : List FmtTemplate :=
  ((FORMATS.find? (fun p => p.1 == key)).map (fun p => p.2)).getD talkTemplates

/-! ## `generate_ideas`

`cfp_generator.py` lines 315-416 and `app.py` lines 211-309 contain the
same function (the CLI version additionally binds a local `track_topics`
that is never read afterwards; it has no effect on the result and is
omitted).  The random outcomes of the six strategy loops and of the final
shuffle are collected in a `RandTrace`: each field gives the outcome of the
corresponding draw at each loop iteration. -/

/-- Outcomes of all random draws made by one call to `generate_ideas`. -/
structure RandTrace where
  angleTopic : Nat → Nat
  angleAngle : Nat → Nat
  crossFst : Nat → Nat
  crossSnd : Nat → Nat
  crossConn : Nat → Nat
  projAngle : Nat → Nat
  fmtTopic : Nat → Nat
  fmtTmpl : Nat → Nat
  fmtDur : Nat → Nat
  audTopic : Nat → Nat
  audHook : Nat → Nat
  shuffleR : Nat → Nat

/-- The local `all_topics`: `expertise_areas + interests`, replaced by the
default triad when empty (`if not all_topics:`). -/
def all_topics (profile : UserProfile) : List String :=
  if profile.expertise_areas ++ profile.interests = [] then
    ["technology", "software development", "best practices"]
  else profile.expertise_areas ++ profile.interests

/-- Strategy 1: angle + topic combinations (`count // 3 + 1` iterations). -/
def strategy_angle (tr : RandTrace) (profile : UserProfile) (count : Nat) : List Idea :=
  (List.range (count / 3 + 1)).map (fun k =>
    let topic := pyChoice (all_topics profile) "" (tr.angleTopic k)
    let angle := pyChoice ANGLES "" (tr.angleAngle k)
    { title := pyTitle angle ++ " " ++ topic, type := "angle-based", topic := topic })

/-- Strategy 2: cross-pollination; guarded by `len(all_topics) >= 2`
(`count // 3 + 1` iterations). -/
def strategy_cross (tr : RandTrace) (profile : UserProfile) (count : Nat) : List Idea :=
  if 2 ≤ (all_topics profile).length then
    (List.range (count / 3 + 1)).map (fun k =>
      let topics := pySample2 (all_topics profile) "" (tr.crossFst k) (tr.crossSnd k)
      let connector := pyChoice CONNECTORS "" (tr.crossConn k)
      { title := pyTitle topics.1 ++ " " ++ connector ++ " " ++ topics.2,
        type := "cross-pollination",
        topic := topics.1 ++ " + " ++ topics.2 })
  else []

/-- Strategy 3: project-based stories (first 3 recent projects). -/
def strategy_project (tr : RandTrace) (profile : UserProfile) : List Idea :=
  (profile.recent_projects.take 3).enum.map (fun pr =>
    let angle := pyChoice ["How we", "Why we", "What we learned when we", "The story of how we"]
      "" (tr.projAngle pr.1)
    { title := angle ++ " " ++ pr.2, type := "experience-based", topic := pr.2 })

/-- Strategy 4: format-specific titles (`count // 4 + 1` iterations). -/
def strategy_format (tr : RandTrace) (profile : UserProfile) (count : Nat) : List Idea :=
  let format_templates := formatsGet profile.talk_format
  (List.range (count / 4 + 1)).map (fun k =>
    let topic := pyChoice (all_topics profile) "" (tr.fmtTopic k)
    let template := pyChoice format_templates (fun s _ _ => s) (tr.fmtTmpl k)
    let duration := if profile.talk_format = "talk" then pyChoice [30, 45] 30 (tr.fmtDur k) else 90
    { title := template topic duration (topic ++ " project"),
      type := "format-specific", topic := topic })

/-- Strategy 5: audience-targeted titles (`count // 4 + 1` iterations). -/
def strategy_audience (tr : RandTrace) (profile : UserProfile) (count : Nat) : List Idea :=
  let hooks := audienceHooksGet profile.target_audience
  (List.range (count / 4 + 1)).map (fun k =>
    let topic := pyChoice (all_topics profile) "" (tr.audTopic k)
    let hook := pyChoice hooks "" (tr.audHook k)
    { title := pyTitle topic ++ ": " ++ pyTitle hook, type := "audience-targeted", topic := topic })

/-- Strategy 6: track-aligned ideas, two per topic over the first 3 topics,
only when a conference track is set. -/
def strategy_track (profile : UserProfile) : List Idea :=
  match profile.conference_track with
  | none => []
  | some track =>
    ((all_topics profile).take 3).flatMap (fun topic =>
      [{ title := pyTitle topic ++ " for " ++ track, type := "track-aligned", topic := topic },
       { title := track ++ ": A " ++ pyTitle topic ++ " Perspective",
         type := "track-aligned", topic := topic }])

/-- The raw candidate pool: the six strategies in source order.  In the
source a single mutable `ideas` list receives the appends of the six
strategy blocks; the concatenation below is that list before the final
shuffle. -/
def idea_pool (tr : RandTrace) (profile : UserProfile) (count : Nat) : List Idea :=
  strategy_angle tr profile count ++ strategy_cross tr profile count ++
    strategy_project tr profile ++ strategy_format tr profile count ++
    strategy_audience tr profile count ++ strategy_track profile

/-- The dedup loop: `seen` models the `seen_titles` set (a list queried
only through membership), ideas whose lower-cased title was already seen
are dropped, first occurrence wins. -/
def dedupIdeas (seen : List String) : List Idea → List Idea
  | [] => []
  | i :: rest =>
    if pyLower i.title ∈ seen then dedupIdeas seen rest
    else i :: dedupIdeas (pyLower i.title :: seen) rest

/-- `generate_ideas(profile, count)`: pool, shuffle, deduplicate, truncate. -/
def generate_ideas (tr : RandTrace) (profile : UserProfile) (count : Nat) : List Idea :=
  (dedupIdeas [] (shuffleWith tr.shuffleR (idea_pool tr profile count))).take count

/-! ## Derived-text generators (`app.py` lines 312-385, `generate_abstract`
also at `cfp_generator.py` lines 419-430) -/

/-- The local `track_mention` of `generate_abstract`. -/
def track_mention (profile : UserProfile) : String :=
  match profile.conference_track with
  | some ct => " in the " ++ ct ++ " space"
  | none => ""

/-- The local `conf_mention` of `generate_abstract`. -/
def conf_mention (profile : UserProfile) : String :=
  match profile.conference_name with
  | some cn => " at " ++ cn
  | none => ""

/-- The local `abstracts` list of `generate_abstract`: the four candidate
sentences. -/
def abstract_candidates (title : String) (profile : UserProfile) : List String :=
  ["In this " ++ profile.talk_format ++ ", we\x27ll explore " ++ pyLower title ++
     track_mention profile ++ " and share practical insights from real-world experience.",
   "Join us for an engaging session on " ++ pyLower title ++ ". Perfect for " ++
     profile.target_audience ++ conf_mention profile ++ ".",
   "This " ++ profile.talk_format ++ " covers " ++ pyLower title ++
     ", with actionable takeaways you can apply immediately.",
   "Discover the key concepts behind " ++ pyLower title ++
     " and learn how to apply them in your own projects" ++ track_mention profile ++ "."]

/-- `generate_abstract(title, profile)`; `r` is the outcome of the final
`random.choice` over the four candidate sentences. -/
def generate_abstract (r : Nat) (title : String) (profile : UserProfile) : String :=
  pyChoice (abstract_candidates title profile) "" r

/-- The base list of 8 takeaway templates of `generate_key_takeaways`;
`topic` is the lower-cased title. -/
def baseTakeaways (topic : String) : List String :=
  ["Understand the core principles of " ++ topic,
   "Learn practical techniques for implementing " ++ topic,
   "Identify common pitfalls and how to avoid them",
   "Gain hands-on experience with real-world examples",
   "Develop a framework for evaluating " ++ topic ++ " solutions",
   "Discover best practices used by industry leaders",
   "Walk away with actionable steps to apply immediately",
   "Build confidence in working with " ++ topic]

/-- The `takeaway_templates` list of `generate_key_takeaways` after the
audience-specific `extend` calls. -/
def takeawayTemplates (topic : String) (audience : String) : List String :=
  if audience = "beginners" then
    baseTakeaways topic ++ ["Get a solid foundation in fundamental concepts",
                            "Learn the essential vocabulary and mental models"]
  else if audience = "advanced" then
    baseTakeaways topic ++ ["Explore edge cases and advanced optimization techniques",
                            "Deep dive into internals and architecture decisions"]
  else baseTakeaways topic

/-- `generate_key_takeaways(title, profile)`: a `random.sample` of
`min(5, len(templates))` templates; `r` drives the sample. -/
def generate_key_takeaways (r : Nat → Nat) (title : String) (profile : UserProfile) : List String :=
  let templates := takeawayTemplates (pyLower title) profile.target_audience
  pySample r (min 5 templates.length) templates

/-- The `reasons` list of `generate_fit_reasons` after the two conditional
appends and the `extend` of the five fixed generic reasons, before the
format-specific append. -/
def fit_reason_base (profile : UserProfile) : List String :=
  (match profile.conference_name with
    | some cn => ["Aligns with " ++ cn ++ "\x27s focus on practical, actionable content"]
    | none => []) ++
  (match profile.conference_track with
    | some ct => ["Directly relevant to the " ++ ct ++ " track"]
    | none => []) ++
  ["Addresses current industry trends and challenges",
   "Provides unique insights from hands-on experience",
   "Suitable for " ++ profile.target_audience ++ " audience with clear learning outcomes",
   "Combines theoretical foundation with practical application",
   "Fills a gap in existing conference content"]

/-- The `reasons` list of `generate_fit_reasons` after all appends, before
the `[:5]` truncation: optional conference reason, optional track reason,
five fixed generic reasons, optional format-specific closing reason.
The `title` argument of the source function is never read. -/
def fit_reason_pool (title : String) (profile : UserProfile) : List String :=
  if profile.talk_format = "workshop" ∨ profile.talk_format = "tutorial" then
    fit_reason_base profile ++ ["Hands-on format ensures attendees leave with real skills"]
  else if profile.talk_format = "lightning" then
    fit_reason_base profile ++ ["Concise format delivers high-impact insights quickly"]
  else fit_reason_base profile

/-- `generate_fit_reasons(title, profile)`: `reasons[:5]`. -/
def generate_fit_reasons (title : String) (profile : UserProfile) : List String :=
  (fit_reason_pool title profile).take 5

/-! ## Call-state wrappers

Python passes the profile object by reference, so a generation function
could in principle mutate its fields.  Each wrapper below is the
statement-by-statement embedding of a call including the profile object
after the call: since no statement in any of the four source bodies assigns
to a profile attribute, the threaded profile component is the input
profile itself. -/

/-- A call to `generate_ideas`, returning the profile after the call. -/
def generate_ideas_call (tr : RandTrace) (profile : UserProfile) (count : Nat) :
    UserProfile × List Idea :=
  (profile, generate_ideas tr profile count)

/-- A call to `generate_abstract`, returning the profile after the call. -/
def generate_abstract_call (r : Nat) (title : String) (profile : UserProfile) :
    UserProfile × String :=
  (profile, generate_abstract r title profile)

/-- A call to `generate_key_takeaways`, returning the profile after the call. -/
def generate_key_takeaways_call (r : Nat → Nat) (title : String) (profile : UserProfile) :
    UserProfile × List String :=
  (profile, generate_key_takeaways r title profile)

/-- A call to `generate_fit_reasons`, returning the profile after the call. -/
def generate_fit_reasons_call (title : String) (profile : UserProfile) :
    UserProfile × List String :=
  (profile, generate_fit_reasons title profile)

/-! ## Basic lemmas about the randomness model -/

open List

theorem pyChoice_mem {α : Type _} (xs : List α) (d : α) (r : Nat) (h : xs ≠ []) :
    pyChoice xs d r ∈ xs := by
  have hl : 0 < xs.length := List.length_pos.mpr h
  have hm : r % xs.length < xs.length := Nat.mod_lt _ hl
  rw [pyChoice, List.getD_eq_getElem xs d hm]
  exact List.getElem_mem hm

/-- Removing the element at a valid index and re-consing it yields a
permutation of the original list. -/
theorem get_cons_eraseIdx_perm {α : Type _} :
    ∀ (l : List α) (i : Nat) (h : i < l.length), l[i] :: l.eraseIdx i ~ l
  | _ :: _, 0, _ => Perm.refl _
  | a :: t, i + 1, h => by
    have ht : i < t.length := by simpa using h
    have ih := get_cons_eraseIdx_perm t i ht
    have hswap : t[i] :: a :: t.eraseIdx i ~ a :: t[i] :: t.eraseIdx i :=
      List.Perm.swap a (t[i]) (t.eraseIdx i)
    simpa using hswap.trans (ih.cons a)

/-- A Fisher-Yates selection pass with fuel equal to the list length is a
permutation of the list, whatever the outcome function. -/
theorem shuffleGo_perm {α : Type _} (r : Nat → Nat) :
    ∀ (n k : Nat) (xs : List α), xs.length = n → shuffleGo r n k xs ~ xs
  | 0, _, [], _ => Perm.refl _
  | 0, _, _ :: _, h => by simp at h
  | _ + 1, _, [], h => by simp at h
  | n + 1, k, x :: xs, h => by
    rw [shuffleGo]
    have hlen : 0 < (x :: xs).length := by simp
    have hi : r k % (x :: xs).length < (x :: xs).length := Nat.mod_lt _ hlen
    rw [List.getD_eq_getElem _ x hi]
    have herase : ((x :: xs).eraseIdx (r k % (x :: xs).length)).length = n := by
      rw [List.length_eraseIdx_of_lt hi]
      omega
    exact ((shuffleGo_perm r n (k + 1) _ herase).cons _).trans
      (get_cons_eraseIdx_perm (x :: xs) _ hi)

theorem shuffleWith_perm {α : Type _} (r : Nat → Nat) (xs : List α) :
    shuffleWith r xs ~ xs :=
  shuffleGo_perm r xs.length 0 xs rfl

/-- A constant outcome function puts the element at that index first. -/
theorem shuffleWith_const {α : Type _} (xs : List α) (i : Nat) (h : i < xs.length) :
    ∃ l, shuffleWith (fun _ => i) xs = xs[i] :: l := by
  match xs with
  | [] => simp at h
  | x :: t =>
    refine ⟨shuffleGo (fun _ => i) t.length 1 ((x :: t).eraseIdx (i % (x :: t).length)), ?_⟩
    have h0 : shuffleWith (fun _ => i) (x :: t) =
        (x :: t).getD (i % (x :: t).length) x ::
          shuffleGo (fun _ => i) t.length 1
            ((x :: t).eraseIdx (i % (x :: t).length)) := rfl
    rw [h0, Nat.mod_eq_of_lt h, List.getD_eq_getElem _ x h]

/-! ## Lemmas about the dedup loop -/

theorem dedupIdeas_subset :
    ∀ (l : List Idea) (seen : List String), ∀ i ∈ dedupIdeas seen l, i ∈ l
  | [], _, i, h => by simp [dedupIdeas] at h
  | a :: t, seen, i, h => by
    rw [dedupIdeas] at h
    split at h
    · exact List.mem_cons_of_mem a (dedupIdeas_subset t seen i h)
    · rcases List.mem_cons.mp h with h' | h'
      · exact h' ▸ List.mem_cons_self a t
      · exact List.mem_cons_of_mem a (dedupIdeas_subset t _ i h')

theorem dedupIdeas_not_mem_seen :
    ∀ (l : List Idea) (seen : List String), ∀ i ∈ dedupIdeas seen l, pyLower i.title ∉ seen
  | [], _, i, h => by simp [dedupIdeas] at h
  | a :: t, seen, i, h => by
    rw [dedupIdeas] at h
    split at h
    · exact dedupIdeas_not_mem_seen t seen i h
    · rcases List.mem_cons.mp h with h' | h'
      · subst h'; assumption
      · intro hseen
        exact dedupIdeas_not_mem_seen t _ i h' (List.mem_cons_of_mem _ hseen)

/-- The dedup loop yields pairwise distinct lower-cased titles. -/
theorem dedupIdeas_pairwise :
    ∀ (l : List Idea) (seen : List String),
      (dedupIdeas seen l).Pairwise (fun a b => pyLower a.title ≠ pyLower b.title)
  | [], seen => by simp [dedupIdeas]
  | a :: t, seen => by
    rw [dedupIdeas]
    split
    · exact dedupIdeas_pairwise t seen
    · refine List.Pairwise.cons ?_ (dedupIdeas_pairwise t _)
      intro b hb hEq
      exact dedupIdeas_not_mem_seen t _ b hb (by rw [← hEq]; exact List.mem_cons_self _ _)

theorem dedupIdeas_nil_cons (a : Idea) (t : List Idea) :
    dedupIdeas [] (a :: t) = a :: dedupIdeas [pyLower a.title] t := by
  rw [dedupIdeas]
  simp

/-! ## Shape of the candidate pool -/

theorem all_topics_ne_nil (p : UserProfile) : all_topics p ≠ [] := by
  rw [all_topics]
  split
  · simp
  · assumption

theorem mem_strategy_angle {tr : RandTrace} {p : UserProfile} {count : Nat} {i : Idea}
    (h : i ∈ strategy_angle tr p count) :
    i.type = "angle-based" ∧ i.topic ∈ all_topics p := by
  rw [strategy_angle] at h
  obtain ⟨k, -, rfl⟩ := List.mem_map.mp h
  exact ⟨rfl, pyChoice_mem _ _ _ (all_topics_ne_nil p)⟩

theorem mem_strategy_cross {tr : RandTrace} {p : UserProfile} {count : Nat} {i : Idea}
    (h : i ∈ strategy_cross tr p count) :
    i.type = "cross-pollination" ∧ 2 ≤ (all_topics p).length := by
  rw [strategy_cross] at h
  split at h
  · obtain ⟨k, -, rfl⟩ := List.mem_map.mp h
    exact ⟨rfl, by assumption⟩
  · simp at h

theorem mem_strategy_project {tr : RandTrace} {p : UserProfile} {i : Idea}
    (h : i ∈ strategy_project tr p) : i.type = "experience-based" := by
  rw [strategy_project] at h
  obtain ⟨pr, -, rfl⟩ := List.mem_map.mp h
  rfl

theorem mem_strategy_format {tr : RandTrace} {p : UserProfile} {count : Nat} {i : Idea}
    (h : i ∈ strategy_format tr p count) :
    i.type = "format-specific" ∧ i.topic ∈ all_topics p := by
  rw [strategy_format] at h
  obtain ⟨k, -, rfl⟩ := List.mem_map.mp h
  exact ⟨rfl, pyChoice_mem _ _ _ (all_topics_ne_nil p)⟩

theorem mem_strategy_audience {tr : RandTrace} {p : UserProfile} {count : Nat} {i : Idea}
    (h : i ∈ strategy_audience tr p count) :
    i.type = "audience-targeted" ∧ i.topic ∈ all_topics p := by
  rw [strategy_audience] at h
  obtain ⟨k, -, rfl⟩ := List.mem_map.mp h
  exact ⟨rfl, pyChoice_mem _ _ _ (all_topics_ne_nil p)⟩

theorem mem_strategy_track {p : UserProfile} {i : Idea} (h : i ∈ strategy_track p) :
    i.type = "track-aligned" ∧ i.topic ∈ all_topics p ∧ p.conference_track.isSome = true := by
  rw [strategy_track] at h
  cases hc : p.conference_track with
  | none => rw [hc] at h; simp at h
  | some track =>
    rw [hc] at h
    obtain ⟨topic, htopic, hmem⟩ := List.mem_flatMap.mp h
    have htop : topic ∈ all_topics p := List.take_subset 3 _ htopic
    rcases List.mem_cons.mp hmem with h' | h'
    · subst h'; exact ⟨rfl, htop, rfl⟩
    · rcases List.mem_cons.mp h' with h'' | h''
      · subst h''; exact ⟨rfl, htop, rfl⟩
      · simp at h''

/-- Every idea in the raw pool carries the tag of the strategy that
produced it, together with the facts that strategy guarantees. -/
theorem mem_idea_pool_cases {tr : RandTrace} {p : UserProfile} {count : Nat} {i : Idea}
    (h : i ∈ idea_pool tr p count) :
    (i.type = "angle-based" ∧ i.topic ∈ all_topics p) ∨
    (i.type = "cross-pollination" ∧ 2 ≤ (all_topics p).length) ∨
    i.type = "experience-based" ∨
    (i.type = "format-specific" ∧ i.topic ∈ all_topics p) ∨
    (i.type = "audience-targeted" ∧ i.topic ∈ all_topics p) ∨
    (i.type = "track-aligned" ∧ i.topic ∈ all_topics p ∧ p.conference_track.isSome = true) := by
  rw [idea_pool] at h
  simp only [List.mem_append] at h
  rcases h with ((((h | h) | h) | h) | h) | h
  · exact Or.inl (mem_strategy_angle h)
  · exact Or.inr (Or.inl (mem_strategy_cross h))
  · exact Or.inr (Or.inr (Or.inl (mem_strategy_project h)))
  · exact Or.inr (Or.inr (Or.inr (Or.inl (mem_strategy_format h))))
  · exact Or.inr (Or.inr (Or.inr (Or.inr (Or.inl (mem_strategy_audience h)))))
  · exact Or.inr (Or.inr (Or.inr (Or.inr (Or.inr (mem_strategy_track h)))))

theorem mem_generate_ideas {tr : RandTrace} {p : UserProfile} {count : Nat} {i : Idea}
    (h : i ∈ generate_ideas tr p count) : i ∈ idea_pool tr p count := by
  rw [generate_ideas] at h
  have h1 := List.take_subset count _ h
  have h2 := dedupIdeas_subset _ _ i h1
  exact (shuffleWith_perm tr.shuffleR _).mem_iff.mp h2

theorem idea_pool_ne_nil (tr : RandTrace) (p : UserProfile) (count : Nat) :
    idea_pool tr p count ≠ [] := by
  intro h
  have hlen : (idea_pool tr p count).length = 0 := by rw [h]; rfl
  rw [idea_pool] at hlen
  simp [strategy_angle] at hlen

/-! ## Concrete fixtures used by witnesses and counterexamples -/

/-- A trace in which every draw takes outcome 0. -/
def zeroTrace : RandTrace :=
  ⟨fun _ => 0, fun _ => 0, fun _ => 0, fun _ => 0, fun _ => 0, fun _ => 0,
   fun _ => 0, fun _ => 0, fun _ => 0, fun _ => 0, fun _ => 0, fun _ => 0⟩

/-- A trace in which every strategy draw takes outcome 0 and the shuffle
always picks position `s`. -/
def seedTrace (s : Nat) : RandTrace :=
  ⟨fun _ => 0, fun _ => 0, fun _ => 0, fun _ => 0, fun _ => 0, fun _ => 0,
   fun _ => 0, fun _ => 0, fun _ => 0, fun _ => 0, fun _ => 0, fun _ => s⟩

/-- A profile whose two topic sources repeat the same single topic. -/
def pDup : UserProfile :=
  { name := "n", expertise_areas := ["python"], recent_projects := [],
    interests := ["python"], target_audience := "mixed" }

/-- A profile with exactly one topic overall. -/
def pOne : UserProfile :=
  { name := "n", expertise_areas := ["python"], recent_projects := [],
    interests := [], target_audience := "mixed" }

/-- A profile with no expertise areas and no interests. -/
def pEmpty : UserProfile :=
  { name := "n", expertise_areas := [], recent_projects := [],
    interests := [], target_audience := "mixed" }

/-- A profile with a conference track set. -/
def pTrack : UserProfile :=
  { name := "n", expertise_areas := ["python"], recent_projects := [],
    interests := [], target_audience := "mixed", conference_name := some "PyCon US",
    conference_track := some "Security" }

/-- A profile whose free-text conference track contains the literal text
"at None" while no conference name is set. -/
def pAtNone : UserProfile :=
  { name := "n", expertise_areas := [], recent_projects := [],
    interests := [], target_audience := "mixed", conference_track := some "at None" }

/-- A profile with neither conference name nor track. -/
def pPlain : UserProfile :=
  { name := "n", expertise_areas := ["testing"], recent_projects := [],
    interests := [], target_audience := "mixed" }

/-! ## Claim C1 -/

/-- Claim C1: for every valid profile, every `1 ≤ count ≤ 20` and every
outcome of the random source, `generate_ideas(profile, count)` returns at
most `count` ideas whose titles, after lower-casing, are pairwise
distinct. -/
theorem claim_C1 (tr : RandTrace) (p : UserProfile) (count : Nat)
    (h1 : 1 ≤ count) (h2 : count ≤ 20) :
    (generate_ideas tr p count).length ≤ count ∧
    (generate_ideas tr p count).Pairwise (fun a b => pyLower a.title ≠ pyLower b.title) := by
  constructor
  · rw [generate_ideas]
    exact List.length_take_le count _
  · rw [generate_ideas]
    exact (dedupIdeas_pairwise _ _).sublist (List.take_sublist count _)

/-- Witness for claim C1 at a concrete profile, count and trace. -/
theorem claim_C1_witness :
    1 ≤ 8 ∧ 8 ≤ 20 ∧
    ((generate_ideas zeroTrace pTrack 8).length ≤ 8 ∧
      (generate_ideas zeroTrace pTrack 8).Pairwise
        (fun a b => pyLower a.title ≠ pyLower b.title)) :=
  ⟨by decide, by decide, claim_C1 zeroTrace pTrack 8 (by decide) (by decide)⟩

/-! ## Claim C4 -/

/-- Claim C4: for every profile (including the empty-topic one) and every
outcome of the random source, `generate_ideas(profile, 1)` returns exactly
one idea. -/
theorem claim_C4 (tr : RandTrace) (p : UserProfile) :
    (generate_ideas tr p 1).length = 1 := by
  have hpool : idea_pool tr p 1 ≠ [] := idea_pool_ne_nil tr p 1
  have hsh : shuffleWith tr.shuffleR (idea_pool tr p 1) ≠ [] := by
    intro hnil
    have hlen := (shuffleWith_perm tr.shuffleR (idea_pool tr p 1)).length_eq
    rw [hnil] at hlen
    exact hpool (List.length_eq_zero.mp hlen.symm)
  obtain ⟨a, t, hat⟩ := List.exists_cons_of_ne_nil hsh
  rw [generate_ideas, hat, dedupIdeas_nil_cons]
  rfl

/-! ## Claim C2 -/

/-- Claim C2, counterexample: the profile `pDup` has fewer than 2 distinct
entries in `expertise_areas ++ interests`, yet for a suitable outcome of
the random source a cross-pollination idea appears in the output (the code
guards the cross-pollination strategy with `len(all_topics) >= 2`, counting
multiplicity, not distinct entries). -/
theorem claim_C2_counterexample :
    (pDup.expertise_areas ++ pDup.interests).dedup.length < 2 ∧
    ∃ i ∈ generate_ideas (seedTrace 1) pDup 1, i.type = "cross-pollination" := by
  decide

/-- Claim C2 as amended: for every profile whose `expertise_areas ++
interests` list has exactly one element (so that the defaulted `all_topics`
also has one element), no cross-pollination idea ever appears in the output
of `generate_ideas`, for any count and any outcome of the random source.
(The original claim fails both for duplicated topics — the guard counts
entries, not distinct entries — and for empty topic lists, where the
3-element default pool enables cross-pollination.) -/
theorem claim_C2_amended (tr : RandTrace) (p : UserProfile) (count : Nat)
    (h : (p.expertise_areas ++ p.interests).length = 1) :
    ∀ i ∈ generate_ideas tr p count, i.type ≠ "cross-pollination" := by
  intro i hi
  have hat : (all_topics p).length = 1 := by
    rw [all_topics]
    split
    · rename_i h0
      rw [h0] at h
      simp at h
    · exact h
  rcases mem_idea_pool_cases (mem_generate_ideas hi) with
    ⟨ht, -⟩ | ⟨ht, hlen⟩ | ht | ⟨ht, -⟩ | ⟨ht, -⟩ | ⟨ht, -, -⟩
  · rw [ht]; decide
  · rw [hat] at hlen; omega
  · rw [ht]; decide
  · rw [ht]; decide
  · rw [ht]; decide
  · rw [ht]; decide

/-- Witness for the amended claim C2 at a concrete one-topic profile. -/
theorem claim_C2_amended_witness :
    (pOne.expertise_areas ++ pOne.interests).length = 1 ∧
    ∀ i ∈ generate_ideas zeroTrace pOne 4, i.type ≠ "cross-pollination" :=
  ⟨by decide, claim_C2_amended zeroTrace pOne 4 (by decide)⟩

/-! ## Claim C8 -/

/-- Claim C8: a profile with empty `expertise_areas` and empty `interests`
falls back to the default topic triad, and every angle-based,
format-specific, audience-targeted or track-aligned idea in the output of
`generate_ideas` (for any count and any outcome) has its topic drawn from
that triad. -/
theorem claim_C8 (tr : RandTrace) (p : UserProfile) (count : Nat)
    (he : p.expertise_areas = []) (hi : p.interests = []) :
    all_topics p = ["technology", "software development", "best practices"] ∧
    ∀ i ∈ generate_ideas tr p count,
      (i.type = "angle-based" ∨ i.type = "format-specific" ∨
        i.type = "audience-targeted" ∨ i.type = "track-aligned") →
      i.topic ∈ ["technology", "software development", "best practices"] := by
  have hat : all_topics p = ["technology", "software development", "best practices"] := by
    rw [all_topics, he, hi]
    simp
  refine ⟨hat, ?_⟩
  intro i himem htype
  rcases mem_idea_pool_cases (mem_generate_ideas himem) with
    ⟨ht, htop⟩ | ⟨ht, -⟩ | ht | ⟨ht, htop⟩ | ⟨ht, htop⟩ | ⟨ht, htop, -⟩
  · rw [hat] at htop; exact htop
  · rcases htype with h4 | h4 | h4 | h4 <;> (rw [ht] at h4; exact absurd h4 (by decide))
  · rcases htype with h4 | h4 | h4 | h4 <;> (rw [ht] at h4; exact absurd h4 (by decide))
  · rw [hat] at htop; exact htop
  · rw [hat] at htop; exact htop
  · rw [hat] at htop; exact htop

/-- Witness for claim C8 at the concrete empty-topic profile. -/
theorem claim_C8_witness :
    all_topics pEmpty = ["technology", "software development", "best practices"] ∧
    ∀ i ∈ generate_ideas zeroTrace pEmpty 5,
      (i.type = "angle-based" ∨ i.type = "format-specific" ∨
        i.type = "audience-targeted" ∨ i.type = "track-aligned") →
      i.topic ∈ ["technology", "software development", "best practices"] :=
  claim_C8 zeroTrace pEmpty 5 rfl rfl

/-! ## Claim C3 -/

theorem filter_track_eq_nil {l : List Idea} (h : ∀ i ∈ l, i.type ≠ "track-aligned") :
    l.filter (fun i => i.type == "track-aligned") = [] := by
  rw [List.filter_eq_nil_iff]
  intro a ha
  simp only [beq_iff_eq]
  exact h a ha

theorem filter_track_flatMap (track : String) (l : List String) :
    (l.flatMap (fun topic =>
        [({ title := pyTitle topic ++ " for " ++ track,
            type := "track-aligned", topic := topic } : Idea),
         { title := track ++ ": A " ++ pyTitle topic ++ " Perspective",
           type := "track-aligned", topic := topic }])).filter
      (fun i => i.type == "track-aligned") =
    l.flatMap (fun topic =>
      [({ title := pyTitle topic ++ " for " ++ track,
          type := "track-aligned", topic := topic } : Idea),
       { title := track ++ ": A " ++ pyTitle topic ++ " Perspective",
         type := "track-aligned", topic := topic }]) := by
  induction l with
  | nil => rfl
  | cons a t ih =>
    simp only [List.flatMap_cons, List.filter_append, ih]
    rfl

/-- Claim C3: (a) for every outcome, a track-aligned idea in the output
forces `conference_track` to be set; (b) when it is set, some outcome of
the random source puts a track-aligned idea in the output, and for every
outcome the track-aligned portion of the candidate pool consists of
exactly the two stated title variants for each of the first 3 entries of
`all_topics`. -/
theorem claim_C3 (p : UserProfile) (count : Nat) (h1 : 1 ≤ count) (h2 : count ≤ 20) :
    (∀ tr : RandTrace, (∃ i ∈ generate_ideas tr p count, i.type = "track-aligned") →
      p.conference_track.isSome = true) ∧
    (∀ track, p.conference_track = some track →
      (∃ tr : RandTrace, ∃ i ∈ generate_ideas tr p count, i.type = "track-aligned") ∧
      (∀ tr : RandTrace,
        (idea_pool tr p count).filter (fun i => i.type == "track-aligned") =
          ((all_topics p).take 3).flatMap (fun topic =>
            [({ title := pyTitle topic ++ " for " ++ track,
                type := "track-aligned", topic := topic } : Idea),
             { title := track ++ ": A " ++ pyTitle topic ++ " Perspective",
               type := "track-aligned", topic := topic }]))) := by
  constructor
  · rintro tr ⟨i, hi, htype⟩
    rcases mem_idea_pool_cases (mem_generate_ideas hi) with
      ⟨ht, -⟩ | ⟨ht, -⟩ | ht | ⟨ht, -⟩ | ⟨ht, -⟩ | ⟨-, -, hsome⟩
    · rw [ht] at htype; exact absurd htype (by decide)
    · rw [ht] at htype; exact absurd htype (by decide)
    · rw [ht] at htype; exact absurd htype (by decide)
    · rw [ht] at htype; exact absurd htype (by decide)
    · rw [ht] at htype; exact absurd htype (by decide)
    · exact hsome
  · intro track htrack
    constructor
    · -- choose the shuffle outcome that puts a track-aligned idea first
      obtain ⟨x, rest, hx⟩ := List.exists_cons_of_ne_nil (all_topics_ne_nil p)
      have hmem1 : ({ title := pyTitle x ++ " for " ++ track,
                      type := "track-aligned", topic := x } : Idea) ∈ strategy_track p := by
        rw [strategy_track, htrack]
        refine List.mem_flatMap.mpr ⟨x, ?_, ?_⟩
        · rw [hx]
          exact List.mem_cons_self x _
        · exact List.mem_cons_self _ _
      have hpool : ({ title := pyTitle x ++ " for " ++ track,
                      type := "track-aligned", topic := x } : Idea) ∈ idea_pool zeroTrace p count := by
        rw [idea_pool]
        simp only [List.mem_append]
        exact Or.inr hmem1
      obtain ⟨idx, hidx, hget⟩ := List.mem_iff_getElem.mp hpool
      refine ⟨seedTrace idx, ?_⟩
      obtain ⟨l, hshuf⟩ := shuffleWith_const (idea_pool zeroTrace p count) idx hidx
      have hgen : generate_ideas (seedTrace idx) p count =
          (dedupIdeas [] (shuffleWith (fun _ => idx) (idea_pool zeroTrace p count))).take count :=
        rfl
      obtain ⟨m, rfl⟩ : ∃ m, count = m + 1 := ⟨count - 1, by omega⟩
      rw [hgen, hshuf, dedupIdeas_nil_cons, List.take_succ_cons]
      refine ⟨(idea_pool zeroTrace p (m + 1))[idx], List.mem_cons_self _ _, ?_⟩
      rw [hget]
    · intro tr
      rw [idea_pool, List.filter_append, List.filter_append, List.filter_append,
        List.filter_append, List.filter_append]
      rw [filter_track_eq_nil (fun i hi => by rw [(mem_strategy_angle hi).1]; decide),
        filter_track_eq_nil (fun i hi => by rw [(mem_strategy_cross hi).1]; decide),
        filter_track_eq_nil (fun i hi => by rw [mem_strategy_project hi]; decide),
        filter_track_eq_nil (fun i hi => by rw [(mem_strategy_format hi).1]; decide),
        filter_track_eq_nil (fun i hi => by rw [(mem_strategy_audience hi).1]; decide)]
      simp only [List.nil_append]
      rw [strategy_track, htrack]
      exact filter_track_flatMap track _

/-- Witness for claim C3 at a concrete profile with a conference track. -/
theorem claim_C3_witness :
    1 ≤ 1 ∧ 1 ≤ 20 ∧
    ((∀ tr : RandTrace, (∃ i ∈ generate_ideas tr pTrack 1, i.type = "track-aligned") →
        pTrack.conference_track.isSome = true) ∧
     (∀ track, pTrack.conference_track = some track →
       (∃ tr : RandTrace, ∃ i ∈ generate_ideas tr pTrack 1, i.type = "track-aligned") ∧
       (∀ tr : RandTrace,
         (idea_pool tr pTrack 1).filter (fun i => i.type == "track-aligned") =
           ((all_topics pTrack).take 3).flatMap (fun topic =>
             [({ title := pyTitle topic ++ " for " ++ track,
                 type := "track-aligned", topic := topic } : Idea),
              { title := track ++ ": A " ++ pyTitle topic ++ " Perspective",
                type := "track-aligned", topic := topic }])))) :=
  ⟨by decide, by decide, claim_C3 pTrack 1 (by decide) (by decide)⟩

/-! ## Claim C5 -/

theorem data_take_of_append (a b : String) (n : Nat) (h : n ≤ a.data.length) :
    ((a ++ b).data).take n = a.data.take n := by
  rw [String.data_append, List.take_append_of_le_length h]

theorem take10_append2 (a t b : String) (h : 10 ≤ a.data.length) :
    (((a ++ t) ++ b).data).take 10 = a.data.take 10 := by
  have h2 : 10 ≤ (a ++ t).data.length := by
    rw [String.data_append, List.length_append]
    omega
  rw [data_take_of_append _ _ _ h2, data_take_of_append _ _ _ h]

/-- The instantiated takeaway templates are pairwise distinct for every
topic: their first 10 characters are the first 10 characters of the fixed
leading literals, which are pairwise distinct. -/
theorem takeawayTemplates_nodup (topic aud : String) :
    (takeawayTemplates topic aud).Nodup := by
  apply List.Nodup.of_map (fun s : String => s.data.take 10)
  have k1 := data_take_of_append "Understand the core principles of " topic 10 (by decide)
  have k2 := data_take_of_append "Learn practical techniques for implementing " topic 10 (by decide)
  have k5 := take10_append2 "Develop a framework for evaluating " topic " solutions" (by decide)
  have k8 := data_take_of_append "Build confidence in working with " topic 10 (by decide)
  rw [takeawayTemplates]
  split
  · rw [baseTakeaways]
    simp only [List.map_append, List.map_cons, List.map_nil, k1, k2, k5, k8]
    decide
  · split
    · rw [baseTakeaways]
      simp only [List.map_append, List.map_cons, List.map_nil, k1, k2, k5, k8]
      decide
    · rw [baseTakeaways]
      simp only [List.map_cons, List.map_nil, k1, k2, k5, k8]
      decide

theorem takeawayTemplates_len (topic aud : String) :
    8 ≤ (takeawayTemplates topic aud).length := by
  rw [takeawayTemplates]
  split
  · rw [baseTakeaways]; simp
  · split
    · rw [baseTakeaways]; simp
    · rw [baseTakeaways]; simp

/-- Claim C5, counterexample: four of the eight base takeaway templates do
not interpolate the title at all, so a sample outcome can return an entry
that does not contain the lower-cased title as a substring. -/
theorem claim_C5_counterexample :
    ∃ s ∈ generate_key_takeaways (fun _ => 2) "Python" pEmpty,
      ¬ strContainsSub s (pyLower "Python") := by
  decide

/-- Claim C5 as amended: for every title, profile and sample outcome,
`generate_key_takeaways` returns exactly 5 entries (so in particular at
most 5, and exactly 5 for the tiers without the audience extension), with
no duplicate entries within the sample, and every entry is one of the
takeaway templates instantiated with the lower-cased title.  (The original
claim fails only in requiring every entry to contain the lower-cased
title: 4 of the 8 base templates do not mention it.) -/
theorem claim_C5_amended (r : Nat → Nat) (title : String) (p : UserProfile) :
    (generate_key_takeaways r title p).length = 5 ∧
    (generate_key_takeaways r title p).Nodup ∧
    ∀ s ∈ generate_key_takeaways r title p,
      s ∈ takeawayTemplates (pyLower title) p.target_audience := by
  have hlen := takeawayTemplates_len (pyLower title) p.target_audience
  have hperm := shuffleWith_perm r (takeawayTemplates (pyLower title) p.target_audience)
  refine ⟨?_, ?_, ?_⟩
  · rw [generate_key_takeaways, pySample, List.length_take, hperm.length_eq]
    omega
  · rw [generate_key_takeaways, pySample]
    exact (hperm.nodup_iff.mpr (takeawayTemplates_nodup _ _)).sublist (List.take_sublist _ _)
  · intro s hs
    rw [generate_key_takeaways, pySample] at hs
    exact hperm.mem_iff.mp (List.take_subset _ _ hs)

/-! ## Claims C6 and C10 -/

theorem fit_base_len (p : UserProfile) : 5 ≤ (fit_reason_base p).length := by
  rw [fit_reason_base]
  cases p.conference_name <;> cases p.conference_track <;> simp

theorem fit_pool_len (title : String) (p : UserProfile) :
    5 ≤ (fit_reason_pool title p).length := by
  have hb := fit_base_len p
  rw [fit_reason_pool]
  split
  · rw [List.length_append]; omega
  · split
    · rw [List.length_append]; omega
    · exact hb

/-- Claim C10: `generate_fit_reasons` returns exactly 5 entries for every
title and profile, because the five fixed generic reasons alone already
bring the constructed list to length at least 5 before truncation. -/
theorem claim_C10 (title : String) (p : UserProfile) :
    (generate_fit_reasons title p).length = 5 := by
  have h := fit_pool_len title p
  rw [generate_fit_reasons, List.length_take]
  omega

theorem fit_base_head (p : UserProfile) (cn : String) (hcn : p.conference_name = some cn) :
    ∃ rest, fit_reason_base p =
      ("Aligns with " ++ cn ++ "\x27s focus on practical, actionable content") :: rest := by
  rw [fit_reason_base, hcn]
  exact ⟨_, rfl⟩

theorem fit_base_track_mem (p : UserProfile) (ct : String)
    (hct : p.conference_track = some ct) :
    ∃ l₀ l₁, fit_reason_base p = l₀ ++ ("Directly relevant to the " ++ ct ++ " track") :: l₁ ∧
      l₀.length ≤ 1 := by
  rw [fit_reason_base, hct]
  cases hcn : p.conference_name
  · exact ⟨[], _, rfl, by simp⟩
  · exact ⟨[_], _, rfl, by simp⟩

theorem mem_take5 {s : String} (l₀ l₁ : List String) (h : l₀.length ≤ 4) :
    s ∈ (l₀ ++ s :: l₁).take 5 := by
  rw [List.take_append_eq_append_take]
  refine List.mem_append_right _ ?_
  obtain ⟨m, hm⟩ : ∃ m, 5 - l₀.length = m + 1 := ⟨4 - l₀.length, by omega⟩
  rw [hm, List.take_succ_cons]
  exact List.mem_cons_self _ _

theorem mem_generate_fit {title : String} {p : UserProfile} {s : String} {l₀ l₁ : List String}
    (hbase : fit_reason_base p = l₀ ++ s :: l₁) (hlen : l₀.length ≤ 4) :
    s ∈ generate_fit_reasons title p := by
  rw [generate_fit_reasons, fit_reason_pool]
  split
  · rw [hbase, List.take_append_eq_append_take]
    exact List.mem_append_left _ (mem_take5 l₀ l₁ hlen)
  · split
    · rw [hbase, List.take_append_eq_append_take]
      exact List.mem_append_left _ (mem_take5 l₀ l₁ hlen)
    · rw [hbase]
      exact mem_take5 l₀ l₁ hlen

/-- Claim C6: whenever the conference name or the conference track (or
both) is set, `generate_fit_reasons` returns exactly 5 entries, the result
is the 5-prefix of the constructed reason list in construction order, and
the conference/track-specific reasons always appear in the output. -/
theorem claim_C6 (title : String) (p : UserProfile)
    (h : p.conference_name.isSome = true ∨ p.conference_track.isSome = true) :
    (generate_fit_reasons title p).length = 5 ∧
    generate_fit_reasons title p <+: fit_reason_pool title p ∧
    (∀ cn, p.conference_name = some cn →
      ("Aligns with " ++ cn ++ "\x27s focus on practical, actionable content") ∈
        generate_fit_reasons title p) ∧
    (∀ ct, p.conference_track = some ct →
      ("Directly relevant to the " ++ ct ++ " track") ∈ generate_fit_reasons title p) := by
  refine ⟨?_, ?_, ?_, ?_⟩
  · have h5 := fit_pool_len title p
    rw [generate_fit_reasons, List.length_take]
    omega
  · rw [generate_fit_reasons]
    exact List.take_prefix 5 _
  · intro cn hcn
    obtain ⟨rest, hb⟩ := fit_base_head p cn hcn
    exact @mem_generate_fit title p _ [] rest (by simpa using hb) (by simp)
  · intro ct hct
    obtain ⟨l₀, l₁, hb, hl⟩ := fit_base_track_mem p ct hct
    exact mem_generate_fit hb (by omega)

/-- Witness for claim C6 at a concrete profile with conference and track. -/
theorem claim_C6_witness :
    (pTrack.conference_name.isSome = true ∨ pTrack.conference_track.isSome = true) ∧
    ((generate_fit_reasons "T" pTrack).length = 5 ∧
     generate_fit_reasons "T" pTrack <+: fit_reason_pool "T" pTrack ∧
     (∀ cn, pTrack.conference_name = some cn →
       ("Aligns with " ++ cn ++ "\x27s focus on practical, actionable content") ∈
         generate_fit_reasons "T" pTrack) ∧
     (∀ ct, pTrack.conference_track = some ct →
       ("Directly relevant to the " ++ ct ++ " track") ∈ generate_fit_reasons "T" pTrack)) :=
  ⟨by decide, claim_C6 "T" pTrack (by decide)⟩

/-! ## Claim C7 -/

/-- Lower-casing never produces the upper-case character N. -/
theorem pyLowerChar_ne_N (c : Char) : pyLowerChar c ≠ 'N' := by
  unfold pyLowerChar
  split
  all_goals first | decide | skip
  intro h
  subst h
  simp_all

theorem pyLower_no_upper_N (s : String) : 'N' ∉ (pyLower s).data := by
  intro h
  have h' : 'N' ∈ s.data.map pyLowerChar := h
  obtain ⟨c, -, hc⟩ := List.mem_map.mp h'
  exact pyLowerChar_ne_N c hc

theorem noN_append {a b : String} (ha : 'N' ∉ a.data) (hb : 'N' ∉ b.data) :
    'N' ∉ (a ++ b).data := by
  rw [String.data_append]
  intro h
  rcases List.mem_append.mp h with h | h
  · exact ha h
  · exact hb h

theorem track_mention_no_N (p : UserProfile)
    (hct : ∀ ct, p.conference_track = some ct → 'N' ∉ ct.data) :
    'N' ∉ (track_mention p).data := by
  cases hc : p.conference_track with
  | none =>
    rw [track_mention, hc]
    exact (by decide : 'N' ∉ ("" : String).data)
  | some ct =>
    rw [track_mention, hc]
    exact noN_append (noN_append (by decide) (hct ct hc)) (by decide)

theorem conf_mention_no_N (p : UserProfile)
    (hcn : ∀ cn, p.conference_name = some cn → 'N' ∉ cn.data) :
    'N' ∉ (conf_mention p).data := by
  cases hc : p.conference_name with
  | none =>
    rw [conf_mention, hc]
    exact (by decide : 'N' ∉ ("" : String).data)
  | some cn =>
    rw [conf_mention, hc]
    exact noN_append (by decide) (hcn cn hc)

/-- If none of the interpolated profile parts contains the character N,
neither does any generated abstract (every fixed literal is N-free and the
lower-cased title cannot contain an upper-case letter). -/
theorem abstract_no_N (r : Nat) (title : String) (p : UserProfile)
    (hfmt : 'N' ∉ p.talk_format.data) (haud : 'N' ∉ p.target_audience.data)
    (htm : 'N' ∉ (track_mention p).data) (hcm : 'N' ∉ (conf_mention p).data) :
    'N' ∉ (generate_abstract r title p).data := by
  have hmem : generate_abstract r title p ∈ abstract_candidates title p :=
    pyChoice_mem _ _ _ (by rw [abstract_candidates]; exact List.cons_ne_nil _ _)
  have ht := pyLower_no_upper_N title
  rw [abstract_candidates] at hmem
  rcases List.mem_cons.mp hmem with h | hmem
  · rw [h]
    exact noN_append (noN_append (noN_append (noN_append (noN_append (by decide) hfmt)
      (by decide)) ht) htm) (by decide)
  rcases List.mem_cons.mp hmem with h | hmem
  · rw [h]
    exact noN_append (noN_append (noN_append (noN_append (noN_append (by decide) ht)
      (by decide)) haud) hcm) (by decide)
  rcases List.mem_cons.mp hmem with h | hmem
  · rw [h]
    exact noN_append (noN_append (noN_append (noN_append (by decide) hfmt) (by decide)) ht)
      (by decide)
  rcases List.mem_cons.mp hmem with h | hmem
  · rw [h]
    exact noN_append (noN_append (noN_append (noN_append (by decide) ht) (by decide)) htm)
      (by decide)
  · simp at hmem

theorem infix_self_append {α : Type _} (x r : List α) : x <:+: x ++ r :=
  ⟨[], r, by simp⟩

theorem infix_append_left {α : Type _} (a : List α) {x l : List α} (h : x <:+: l) :
    x <:+: a ++ l := by
  obtain ⟨s, t, rfl⟩ := h
  exact ⟨a ++ s, t, by simp⟩

/-- Every generated abstract contains the lower-cased title. -/
theorem abstract_contains_title (r : Nat) (title : String) (p : UserProfile) :
    strContainsSub (generate_abstract r title p) (pyLower title) := by
  have hmem : generate_abstract r title p ∈ abstract_candidates title p :=
    pyChoice_mem _ _ _ (by rw [abstract_candidates]; exact List.cons_ne_nil _ _)
  rw [abstract_candidates] at hmem
  rw [strContainsSub]
  rcases List.mem_cons.mp hmem with h | hmem
  · rw [h]
    simp only [String.data_append, List.append_assoc]
    exact infix_append_left _ (infix_append_left _ (infix_append_left _
      (infix_self_append _ _)))
  rcases List.mem_cons.mp hmem with h | hmem
  · rw [h]
    simp only [String.data_append, List.append_assoc]
    exact infix_append_left _ (infix_self_append _ _)
  rcases List.mem_cons.mp hmem with h | hmem
  · rw [h]
    simp only [String.data_append, List.append_assoc]
    exact infix_append_left _ (infix_append_left _ (infix_append_left _
      (infix_self_append _ _)))
  rcases List.mem_cons.mp hmem with h | hmem
  · rw [h]
    simp only [String.data_append, List.append_assoc]
    exact infix_append_left _ (infix_self_append _ _)
  · simp at hmem

/-- Claim C7, counterexample: with no conference name set but a free-text
conference track that itself contains the text "at None", the generated
abstract contains "at None" — the claim as stated over every profile is
false. -/
theorem claim_C7_counterexample :
    pAtNone.conference_name = none ∧
    strContainsSub (generate_abstract 0 "Python" pAtNone) "at None" := by
  decide

/-- Claim C7 as amended: the abstract always contains the lower-cased
title; and the literal texts "at None" / "in the None" cannot appear when
the corresponding field is unset, provided the character N does not occur
in the profile fields that are interpolated verbatim (talk format,
audience, and the other conference field when set) — which is exactly the
injection vector of the counterexample. -/
theorem claim_C7_amended (r : Nat) (title : String) (p : UserProfile) :
    strContainsSub (generate_abstract r title p) (pyLower title) ∧
    (p.conference_name = none → 'N' ∉ p.talk_format.data → 'N' ∉ p.target_audience.data →
      (∀ ct, p.conference_track = some ct → 'N' ∉ ct.data) →
      ¬ strContainsSub (generate_abstract r title p) "at None") ∧
    (p.conference_track = none → 'N' ∉ p.talk_format.data → 'N' ∉ p.target_audience.data →
      (∀ cn, p.conference_name = some cn → 'N' ∉ cn.data) →
      ¬ strContainsSub (generate_abstract r title p) "in the None") := by
  refine ⟨abstract_contains_title r title p, ?_, ?_⟩
  · intro hcn hfmt haud hct hinf
    have hcm : 'N' ∉ (conf_mention p).data := by
      rw [conf_mention, hcn]
      exact (by decide : 'N' ∉ ("" : String).data)
    have hnoN := abstract_no_N r title p hfmt haud (track_mention_no_N p hct) hcm
    exact hnoN (List.IsInfix.subset hinf
      (show 'N' ∈ ("at None" : String).data by decide))
  · intro hct hfmt haud hcn hinf
    have htm : 'N' ∉ (track_mention p).data := by
      rw [track_mention, hct]
      exact (by decide : 'N' ∉ ("" : String).data)
    have hnoN := abstract_no_N r title p hfmt haud htm (conf_mention_no_N p hcn)
    exact hnoN (List.IsInfix.subset hinf
      (show 'N' ∈ ("in the None" : String).data by decide))

/-- Witness for the amended claim C7 at a concrete title and a profile with
neither conference name nor track. -/
theorem claim_C7_amended_witness :
    strContainsSub (generate_abstract 0 "GraphQL" pPlain) (pyLower "GraphQL") ∧
    ¬ strContainsSub (generate_abstract 0 "GraphQL" pPlain) "at None" ∧
    ¬ strContainsSub (generate_abstract 0 "GraphQL" pPlain) "in the None" :=
  ⟨(claim_C7_amended 0 "GraphQL" pPlain).1,
   (claim_C7_amended 0 "GraphQL" pPlain).2.1 rfl (by decide) (by decide)
     (fun ct h => by simp [pPlain] at h),
   (claim_C7_amended 0 "GraphQL" pPlain).2.2 rfl (by decide) (by decide)
     (fun cn h => by simp [pPlain] at h)⟩

/-! ## Claim C9 -/

/-- Claim C9: every generation function leaves the profile it receives
unchanged — each call-state wrapper returns the input profile as the
profile after the call, since no statement of the source bodies assigns to
a profile attribute. -/
theorem claim_C9 (tr : RandTrace) (r : Nat) (rs : Nat → Nat) (title : String)
    (p : UserProfile) (count : Nat) :
    (generate_ideas_call tr p count).1 = p ∧
    (generate_abstract_call r title p).1 = p ∧
    (generate_key_takeaways_call rs title p).1 = p ∧
    (generate_fit_reasons_call title p).1 = p :=
  ⟨rfl, rfl, rfl, rfl⟩

end CFP
